import Mathlib

/-!
# Verification of the Nikumaroro Taraia time-lapse downloader

A shallow embedding of the decision logic in `scripts/getdata_nikumaroro.py`
and `scripts/nikumaroro_analysis.py`:

* per-year best-image selection over two imagery sources with an ordered
  fallback (`get_best_sentinel2`, `get_best_landsat8`, the year loop in
  `main`);
* download validation (`download_image`): HTTP status, content-type and
  raster-decode checks, plus the deterministic file write;
* frame normalization (`align_images`) and manifest construction
  (`write_viewer_config`, `create_viewer_config`).

External capabilities (the Earth Engine catalog, the HTTP stack, the PIL
decoder) are modelled as explicit parameters; the decision logic applied to
them is translated directly from the Python source.
-/

namespace Taraia

/-! ## Dates

Earth Engine stores acquisition timestamps; the scripts only ever compare
them through date strings of the form `YYYY-MM-dd`.  We model a calendar
date by its components and compare via the numeric key `y*10000+m*100+d`,
which agrees with lexicographic comparison of the formatted strings for
four-digit years. -/

structure Date where
  year : Nat
  month : Nat
  day : Nat
deriving DecidableEq

/-- Numeric sort key of a date; monotone in (year, month, day). -/
def Date.key (d : Date) : Nat := d.year * 10000 + d.month * 100 + d.day

instance : LE Date := ⟨fun a b => a.key ≤ b.key⟩
instance : LT Date := ⟨fun a b => a.key < b.key⟩

instance (a b : Date) : Decidable (a ≤ b) := Nat.decLe _ _
instance (a b : Date) : Decidable (a < b) := Nat.decLt _ _

/-- Zero-pad a month/day component to two digits, as in `YYYY-MM-dd`. -/
def pad2 (n : Nat) : String := if n < 10 then ("0" ++ toString n) else toString n

/-- Python string comparison: lexicographic over code points. -/
def lexLe : List Char → List Char → Bool
  | [], _ => true
  | _ :: _, [] => false
  | a :: as, b :: bs =>
    if a.toNat < b.toNat then true
    else if b.toNat < a.toNat then false
    else lexLe as bs

/-- Transitivity of the lexicographic comparison. -/
theorem lexLe_trans : ∀ x y z : List Char,
    lexLe x y = true → lexLe y z = true → lexLe x z = true
  | [], _, _, _, _ => rfl
  | _ :: _, [], _, h1, _ => by simp [lexLe] at h1
  | _ :: _, _ :: _, [], _, h2 => by simp [lexLe] at h2
  | a :: as, b :: bs, c :: cs, h1, h2 => by
    simp only [lexLe] at h1 h2 ⊢
    rcases Nat.lt_trichotomy a.toNat b.toNat with hab | hab | hab
    · rcases Nat.lt_trichotomy b.toNat c.toNat with hbc | hbc | hbc
      · simp [show a.toNat < c.toNat from Nat.lt_trans hab hbc]
      · simp [show a.toNat < c.toNat from hbc ▸ hab]
      · rw [if_neg (Nat.lt_asymm hbc), if_pos hbc] at h2
        exact absurd h2 (by simp)
    · rw [if_neg (by omega), if_neg (by omega)] at h1
      rcases Nat.lt_trichotomy b.toNat c.toNat with hbc | hbc | hbc
      · simp [show a.toNat < c.toNat by omega]
      · rw [if_neg (by omega), if_neg (by omega)] at h2
        rw [if_neg (show ¬ a.toNat < c.toNat by omega),
          if_neg (show ¬ c.toNat < a.toNat by omega)]
        exact lexLe_trans as bs cs h1 h2
      · rw [if_neg (by omega), if_pos hbc] at h2
        exact absurd h2 (by simp)
    · rw [if_neg (by omega), if_pos hab] at h1
      exact absurd h1 (by simp)

/-- Totality of the lexicographic comparison. -/
theorem lexLe_total : ∀ x y : List Char, lexLe x y = true ∨ lexLe y x = true
  | [], _ => Or.inl rfl
  | _ :: _, [] => Or.inr rfl
  | a :: as, b :: bs => by
    rcases Nat.lt_trichotomy a.toNat b.toNat with h | h | h
    · exact Or.inl (by simp [lexLe, h])
    · rcases lexLe_total as bs with hl | hl
      · exact Or.inl (by simp [lexLe, hl]; omega)
      · exact Or.inr (by simp [lexLe, hl]; omega)
    · exact Or.inr (by simp [lexLe, h])

/-- The `image.date().format("YYYY-MM-dd")` date string of the scripts. -/
def Date.fmt (d : Date) : String :=
  toString d.year ++ "-" ++ pad2 d.month ++ "-" ++ pad2 d.day

/-! ## Candidates and the imagery catalog -/

/-- One catalog entry: acquisition date plus the scalar cloud metric
(`CLOUDY_PIXEL_PERCENTAGE` for Sentinel-2, `CLOUD_COVER` for Landsat 8;
lower is better).  The opaque rendering handle is irrelevant to the
properties proved here and is omitted. -/
structure Candidate where
  date : Date
  cloud : ℚ
deriving DecidableEq

/-- The two imagery sources of `getdata_nikumaroro.py`. -/
inductive Source where
  | sentinel2
  | landsat8
deriving DecidableEq

/-- The external Earth Engine catalog, already restricted to the region of
interest (`filterBounds(roi)`): the full candidate list of each collection. -/
structure Catalog where
  s2 : List Candidate
  l8 : List Candidate
deriving DecidableEq

/-- Model of `ee.ImageCollection.filterDate(start, end)`: keeps images acquired at
`start ≤ t < end`.  Per the Earth Engine API reference the end date is
exclusive. -/
def filterDate (s e : Date) (l : List Candidate) : List Candidate :=
  l.filter (fun c => decide (s ≤ c.date) && decide (c.date < e))

/-- The window start `f"{year}-01-01"`. -/
def jan1 (year : Nat) : Date := ⟨year, 1, 1⟩

/-- The window end `f"{year}-12-31"`. -/
def dec31 (year : Nat) : Date := ⟨year, 12, 31⟩

/-- The cloud-metric acceptability threshold used by both
`ee.Filter.lt("CLOUDY_PIXEL_PERCENTAGE", 30)` and
`ee.Filter.lt("CLOUD_COVER", 30)`. -/
def CLOUD_THRESHOLD : ℚ := 30

/-- Model of `.filter(ee.Filter.lt(<cloud property>, 30))`. -/
def filterCloud (l : List Candidate) : List Candidate :=
  l.filter (fun c => decide (c.cloud < CLOUD_THRESHOLD))

/-- Ordering of candidates by cloud metric. -/
def cloudLe (a b : Candidate) : Prop := a.cloud ≤ b.cloud

instance : DecidableRel cloudLe :=
  fun a b => inferInstanceAs (Decidable (a.cloud ≤ b.cloud))

instance : IsTotal Candidate cloudLe := ⟨fun a b => le_total a.cloud b.cloud⟩

instance : IsTrans Candidate cloudLe := ⟨fun _ _ _ h1 h2 => le_trans h1 h2⟩

/-- Model of `.sort(<cloud property>)`: ascending stable sort by the cloud
metric.  A stable sort by a fixed key is unique, so insertion sort models
the collection sort exactly. -/
def sortCloud (l : List Candidate) : List Candidate :=
  l.insertionSort cloudLe

/-- Model of `get_best_sentinel2(year, roi)`: the least-cloudy Sentinel-2 image of
the year window, or `none` when the filtered collection is empty
(`count == 0`). -/
def get_best_sentinel2 (year : Nat) (cat : Catalog) : Option Candidate :=
  (sortCloud (filterCloud (filterDate (jan1 year) (dec31 year) cat.s2))).head?

/-- Model of `get_best_landsat8(year, roi)`: the least-cloudy Landsat 8 image of the
year window, or `none` when the filtered collection is empty. -/
def get_best_landsat8 (year : Nat) (cat : Catalog) : Option Candidate :=
  (sortCloud (filterCloud (filterDate (jan1 year) (dec31 year) cat.l8))).head?

/-- The date-windowed candidate pool a source is queried over for a year
(before the cloud filter). -/
def yearPool (src : Source) (year : Nat) (cat : Catalog) : List Candidate :=
  match src with
  | .sentinel2 => filterDate (jan1 year) (dec31 year) cat.s2
  | .landsat8 => filterDate (jan1 year) (dec31 year) cat.l8

/-- The acceptable candidates of a source for a year: the pool restricted to
cloud metric strictly below the threshold. -/
def acceptable (src : Source) (year : Nat) (cat : Catalog) : List Candidate :=
  filterCloud (yearPool src year cat)

/-- Uniform view of the two `get_best_*` functions. -/
def get_best (src : Source) (year : Nat) (cat : Catalog) : Option Candidate :=
  match src with
  | .sentinel2 => get_best_sentinel2 year cat
  | .landsat8 => get_best_landsat8 year cat

/-! ## Per-year source selection (the fallback in `main`) -/

/-- Outcome of selection for one year. -/
inductive SelResult where
  | selected (src : Source) (c : Candidate)
  | noCoverage
deriving DecidableEq

/-- First-priority source of a year: Sentinel-2 preferred from 2015 onward,
Landsat 8 before. -/
def firstPriority (year : Nat) : Source :=
  if 2015 ≤ year then .sentinel2 else .landsat8

/-- The per-year branch of `main`: try Sentinel-2 for years ≥ 2015, fall
back to Landsat 8 when Sentinel-2 yields nothing, use only Landsat 8 before
2015.  Also returns the list of sources actually queried, in query order. -/
def selectForYear (cat : Catalog) (year : Nat) : SelResult × List Source :=
  if 2015 ≤ year then
    match get_best_sentinel2 year cat with
    | some c => (.selected .sentinel2 c, [.sentinel2])
    | none =>
      match get_best_landsat8 year cat with
      | some c => (.selected .landsat8 c, [.sentinel2, .landsat8])
      | none => (.noCoverage, [.sentinel2, .landsat8])
  else
    match get_best_landsat8 year cat with
    | some c => (.selected .landsat8 c, [.landsat8])
    | none => (.noCoverage, [.landsat8])

/-! ## Download and validation (`download_image`) -/

/-- An HTTP response as observed by `download_image`: `response.status_code`,
`response.headers.get("Content-Type", "")` and the body bytes. -/
structure HttpResponse where
  status : Nat
  contentType : String
  body : List Nat
deriving DecidableEq

/-- Whether `pat` occurs as a contiguous subsequence of `l`. -/
def containsSeq (pat : List Char) : List Char → Bool
  | [] => pat.isEmpty
  | c :: rest => pat.isPrefixOf (c :: rest) || containsSeq pat rest

/-- Model of `"image" in content_type`: Python substring membership. -/
def containsImage (ct : String) : Bool :=
  containsSeq ("image".toList) ct.toList

/-- The durable output directory: filename ↦ bytes, newest binding first. -/
def Store := List (String × List Nat)

/-- Model of `open(filepath, "wb")` followed by `write`: truncate any previous file of
that name and store the new content. -/
def writeBytes (store : Store) (name : String) (content : List Nat) : Store :=
  (name, content) :: store.filter (fun p => !(p.1 == name))

/-- Model of `download_image(image, roi, vis_params, filename)`.

* `resp?` is the outcome of `requests.get(url, timeout=120)` together with
  the preceding `getThumbURL` call: `none` when either raises (network
  error, timeout), caught by the `except` block;
* `decode` models `PIL.Image.open` + `img.verify()`: `true` iff the bytes
  decode as a structurally valid image (an exception is `false`, caught by
  the `except` block).

Returns the `True`/`False` result of the Python function together with the
updated output directory; the file is written only after every check has
passed. -/
def download_image (resp? : Option HttpResponse) (decode : List Nat → Bool)
    (store : Store) (filename : String) : Bool × Store :=
  match resp? with
  | none => (false, store)
  | some r =>
    if r.status ≠ 200 ∨ containsImage r.contentType = false then (false, store)
    else if decode r.body then (true, writeBytes store filename r.body)
    else (false, store)

/-- The filenames `f"sentinel2_{year}.png"` / `f"landsat8_{year}.png"` from the year loop
of `main`. -/
def filenameFor (src : Source) (year : Nat) : String :=
  match src with
  | .sentinel2 => "sentinel2_" ++ toString year ++ ".png"
  | .landsat8 => "landsat8_" ++ toString year ++ ".png"

/-! ## The year loop of `main` -/

/-- The constant `IMAGE_PX = 1024`, the requested thumbnail dimension. -/
def IMAGE_PX : Nat := 1024

/-- The constant `START_YEAR = 2013`. -/
def START_YEAR : Nat := 2013

/-- The constant `END_YEAR = 2024`. -/
def END_YEAR : Nat := 2024

/-- The `source_label` strings of `main`. -/
def sourceLabel (src : Source) : String :=
  match src with
  | .sentinel2 => "Sentinel-2"
  | .landsat8 => "Landsat 8"

/-- One element of `images_info`, as appended by `main` after a successful
download. -/
structure ManifestEntry where
  date : String
  filename : String
  aligned_filename : String
  source : String
  width : Nat
  height : Nat
deriving DecidableEq

/-- The dict literal `main` appends to `images_info` for an accepted year. -/
def mkEntry (src : Source) (c : Candidate) (year : Nat) : ManifestEntry :=
  { date := c.date.fmt
    filename := filenameFor src year
    aligned_filename := filenameFor src year
    source := sourceLabel src
    width := IMAGE_PX
    height := IMAGE_PX }

/-- The external world a run interacts with: the catalog, the HTTP response
obtained when downloading a given source/year thumbnail, and the raster
decoder. -/
structure Env where
  cat : Catalog
  resp : Source → Nat → Option HttpResponse
  decode : List Nat → Bool

/-- Mutable state of the year loop: `images_info`, `failed_years` and the
output directory. -/
structure RunState where
  images : List ManifestEntry
  failed : List Nat
  store : Store

/-- The body of `for year in range(START_YEAR, END_YEAR + 1)` in `main`:
select a source, download, and either append the manifest entry or record
the year as failed; a failure never escapes the iteration. -/
def processYear (env : Env) (st : RunState) (year : Nat) : RunState :=
  match (selectForYear env.cat year).1 with
  | .noCoverage => { st with failed := st.failed ++ [year] }
  | .selected src c =>
    let fn := filenameFor src year
    let res := download_image (env.resp src year) env.decode st.store fn
    if res.1 then
      { st with images := st.images ++ [mkEntry src c year], store := res.2 }
    else
      { st with failed := st.failed ++ [year], store := res.2 }

/-- The whole year loop, starting from empty collections and an empty
output directory. -/
def runYears (env : Env) (years : List Nat) : RunState :=
  years.foldl (processYear env) ⟨[], [], []⟩

/-- Whether a year is skipped: no source yields an image, or the download
of the selected image fails validation. -/
def yearFails (env : Env) (year : Nat) : Bool :=
  match (selectForYear env.cat year).1 with
  | .noCoverage => true
  | .selected src _ =>
    !(download_image (env.resp src year) env.decode [] (filenameFor src year)).1

/-- The manifest entry a year contributes, if any. -/
def acceptedEntry (env : Env) (year : Nat) : Option ManifestEntry :=
  match (selectForYear env.cat year).1 with
  | .noCoverage => none
  | .selected src c =>
    if (download_image (env.resp src year) env.decode [] (filenameFor src year)).1 then
      some (mkEntry src c year)
    else none

/-! ## Viewer configuration (`write_viewer_config`) -/

/-- The constant `TARAIA_LAT` (a Python float, modelled by its decimal value). -/
def TARAIA_LAT : ℚ := -4.686167

/-- The constant `TARAIA_LON`. -/
def TARAIA_LON : ℚ := -174.498083

/-- The constant `location` block of both viewer configs. -/
structure Location where
  name : String
  lat : ℚ
  lon : ℚ
  description : String
deriving DecidableEq

/-- The `location` dict literal shared by both scripts. -/
def TARAIA_LOCATION : Location :=
  { name := "Taraia Object, Nikumaroro Island"
    lat := TARAIA_LAT
    lon := TARAIA_LON
    description := "Suspected location of Amelia Earhart\x27s Lockheed Electra 10E" }

/-- The `date_range` dict. -/
structure DateRange where
  start : String
  «end» : String
deriving DecidableEq

/-- The `metadata` dict; `generated` is `datetime.now().isoformat()`, passed
in as a parameter since it is read from the clock. -/
structure MetaData where
  generated : String
  total_images : Nat
  date_range : DateRange
deriving DecidableEq

/-- The `viewer_config.json` record as written by `write_viewer_config`. -/
structure ViewerConfig where
  location : Location
  images : List ManifestEntry
  metadata : MetaData
deriving DecidableEq

/-- Ordering of manifest entries by their date string. -/
def dateLe (a b : ManifestEntry) : Prop := lexLe a.date.toList b.date.toList = true

instance : DecidableRel dateLe :=
  fun a b => inferInstanceAs (Decidable (lexLe a.date.toList b.date.toList = true))

instance : IsTrans ManifestEntry dateLe :=
  ⟨fun _ _ _ h1 h2 => lexLe_trans _ _ _ h1 h2⟩

instance : IsTotal ManifestEntry dateLe := ⟨fun _ _ => lexLe_total _ _⟩

/-- Model of `images_info.sort(key=lambda x: x["date"])`: Python `list.sort`
is a stable ascending sort, and a stable sort by a fixed key is unique, so
insertion sort by the same key models it exactly. -/
def sortByDate (l : List ManifestEntry) : List ManifestEntry :=
  l.insertionSort dateLe

/-- Model of `write_viewer_config(images_info)` from `getdata_nikumaroro.py`. -/
def write_viewer_config (images_info : List ManifestEntry) (now : String) :
    ViewerConfig :=
  let sorted := sortByDate images_info
  { location := TARAIA_LOCATION
    images := sorted
    metadata :=
      { generated := now
        total_images := sorted.length
        date_range :=
          { start := match sorted.head? with
              | some x => x.date
              | none => "unknown"
            «end» := match sorted.getLast? with
              | some x => x.date
              | none => "unknown" } } }

/-! ## `nikumaroro_analysis.py`: alignment and its viewer config -/

/-- One `images_info` dict of the analysis script (`date`, optional
`timestamp`, `filename`, `source`). -/
structure AnalysisEntry where
  date : String
  timestamp : Option Nat
  filename : String
  source : String
deriving DecidableEq

/-- Model of the per-image fetch step of `download_sentinel2_images`
(`nikumaroro_analysis.py` lines 111-128): `requests.get(url)` with no
timeout, then `if response.status_code == 200:` write the file and accept
the image.  There is no content-type check and no decode check; a raising
`getThumbURL`/`requests.get` (`resp? = none`) is caught by the `except`
block and the image is skipped.  Returns whether the image was accepted
together with the updated output directory. -/
def analysis_fetch (resp? : Option HttpResponse) (store : Store)
    (filename : String) : Bool × Store :=
  match resp? with
  | none => (false, store)
  | some r =>
    if r.status = 200 then (true, writeBytes store filename r.body)
    else (false, store)

/-- A loaded image as seen by `align_images`: its metadata dict together
with the numpy array shape `(height, width)`. -/
structure RawFrame where
  info : AnalysisEntry
  height : Nat
  width : Nat
deriving DecidableEq

/-- One aligned output dict: the original metadata plus `aligned_filename`,
`width`, `height`.  The ghost field `resampled` records whether the
`pil_img.resize(...)` branch executed for this frame. -/
structure AlignedImage where
  info : AnalysisEntry
  aligned_filename : String
  width : Nat
  height : Nat
  resampled : Bool
deriving DecidableEq

/-- Model of `align_images(images_info)` from `nikumaroro_analysis.py`: empty input
returns empty; otherwise the first frame's shape is the reference, frames
with a different shape are resampled to it, and every output dict carries
the reference width/height. -/
def align_images : List RawFrame → List AlignedImage
  | [] => []
  | f0 :: rest =>
    (f0 :: rest).map fun f =>
      { info := f.info
        aligned_filename := "aligned_" ++ f.info.filename
        width := f0.width
        height := f0.height
        resampled := !(f.height == f0.height && f.width == f0.width) }

/-- The sort key `x.get('timestamp', 0) or x.get('date', '')` of
`create_viewer_config`: the timestamp when present and nonzero (Python `or`
on a falsy left operand), otherwise the date string. -/
def pyKey (e : AlignedImage) : Sum Nat String :=
  match e.info.timestamp with
  | some t => if t ≠ 0 then Sum.inl t else Sum.inr e.info.date
  | none => Sum.inr e.info.date

/-- Comparison of uniformly-typed sort keys.  Comparing an `int` key with a
`str` key raises `TypeError` in Python 3; `create_viewer_config` below
returns `none` on such mixed-key inputs before any comparison result is
used, so the cross-constructor values here are never consulted in a
reachable result. -/
def keyLe : Sum Nat String → Sum Nat String → Bool
  | Sum.inl a, Sum.inl b => decide (a ≤ b)
  | Sum.inr a, Sum.inr b => lexLe a.toList b.toList
  | Sum.inl _, Sum.inr _ => true
  | Sum.inr _, Sum.inl _ => false

/-- Whether sorting `aligned` by `pyKey` raises `TypeError` in Python 3:
the list holds both an `int`-keyed and a `str`-keyed element, and a
comparison sort of length ≥ 2 with both groups present must compare some
mixed pair. -/
def mixedKeys (aligned : List AlignedImage) : Bool :=
  aligned.any (fun a => (pyKey a).isLeft) && aligned.any (fun a => (pyKey a).isRight)

/-- The viewer config of the analysis script. -/
structure AnalysisConfig where
  location : Location
  images : List AlignedImage
  metadata : MetaData
deriving DecidableEq

/-- Model of `create_viewer_config(aligned_images)` from `nikumaroro_analysis.py`.
`none` models a raising run: sorting a mix of timestamp-keyed and
date-keyed frames raises `TypeError` (mixed `int`/`str` comparison), and —
unlike `write_viewer_config` — the function indexes `aligned_images[0]` and
`aligned_images[-1]` with no emptiness guard, so on an empty list it raises
`IndexError`.  (`.get('date', 'unknown')` defaults a missing dict key, not
an empty list.)  On uniformly-keyed input the sort is Python's stable
`list.sort` by `pyKey`, modelled by insertion sort. -/
def create_viewer_config (aligned : List AlignedImage) (now : String) :
    Option AnalysisConfig :=
  if mixedKeys aligned then none else
  let sorted := aligned.insertionSort (fun a b => keyLe (pyKey a) (pyKey b) = true)
  match sorted.head?, sorted.getLast? with
  | some first, some last =>
    some
      { location := TARAIA_LOCATION
        images := sorted
        metadata :=
          { generated := now
            total_images := sorted.length
            date_range := { start := first.info.date, «end» := last.info.date } } }
  | _, _ => none

/-! ## Concrete sample data

Used by the witness theorems below to instantiate the general statements at
evaluable inputs. -/

/-- A Sentinel-2 candidate: 2020-07-01, 5 % cloud. -/
def wCand : Candidate := ⟨⟨2020, 7, 1⟩, 5⟩

/-- A Sentinel-2 candidate: 2020-06-01, 10 % cloud. -/
def wCand2 : Candidate := ⟨⟨2020, 6, 1⟩, 10⟩

/-- A catalog holding the two Sentinel-2 candidates above. -/
def wCat : Catalog := ⟨[wCand2, wCand], []⟩

/-- A candidate acquired on New Year's Eve 2020, 5 % cloud. -/
def wDecCand : Candidate := ⟨⟨2020, 12, 31⟩, 5⟩

/-- A candidate acquired on 2020-12-30, 7 % cloud. -/
def wDec30Cand : Candidate := ⟨⟨2020, 12, 30⟩, 7⟩

/-- A catalog holding only the two late-December candidates. -/
def wDecCat : Catalog := ⟨[wDecCand, wDec30Cand], []⟩

/-- A well-formed image response. -/
def okResp : HttpResponse := ⟨200, "image/png", [1, 2]⟩

/-- A decoder accepting exactly the nonempty byte streams. -/
def wDecode (b : List Nat) : Bool := !b.isEmpty

/-- An environment in which every download succeeds. -/
def wEnvOk : Env := ⟨wCat, fun _ _ => some okResp, wDecode⟩

/-- An environment with an empty catalog and failing transport. -/
def wEnvFail : Env := ⟨⟨[], []⟩, fun _ _ => none, fun _ => false⟩

/-- Manifest entry dated 2016-03-01. -/
def wE1 : ManifestEntry :=
  ⟨"2016-03-01", "sentinel2_2016.png", "sentinel2_2016.png", "Sentinel-2", 1024, 1024⟩

/-- Manifest entry dated 2013-07-10. -/
def wE2 : ManifestEntry :=
  ⟨"2013-07-10", "landsat8_2013.png", "landsat8_2013.png", "Landsat 8", 1024, 1024⟩

/-- Manifest entry dated 2020-11-05. -/
def wE3 : ManifestEntry :=
  ⟨"2020-11-05", "sentinel2_2020.png", "sentinel2_2020.png", "Sentinel-2", 1024, 1024⟩

/-- A 1024×1024 raw frame. -/
def wF1 : RawFrame := ⟨⟨"2016-03-01", none, "a.png", "Sentinel-2"⟩, 1024, 1024⟩

/-- An 800×600 raw frame (width 800, height 600). -/
def wF2 : RawFrame := ⟨⟨"2013-07-10", none, "b.png", "Landsat 8"⟩, 600, 800⟩

/-- The aligned output of the 800×600 frame in the witness run. -/
def wAligned2 : AlignedImage :=
  ⟨⟨"2013-07-10", none, "b.png", "Landsat 8"⟩, "aligned_b.png", 1024, 1024, true⟩

/-- A GEE frame dated 2016-03-01 with the later timestamp 2000. -/
def wT1 : AlignedImage :=
  ⟨⟨"2016-03-01", some 2000, "s1.png", "Sentinel-2"⟩, "aligned_s1.png", 1024, 1024, false⟩

/-- A GEE frame with the same date 2016-03-01 but earlier timestamp 1000. -/
def wT2 : AlignedImage :=
  ⟨⟨"2016-03-01", some 1000, "s2.png", "Sentinel-2"⟩, "aligned_s2.png", 1024, 1024, false⟩

/-- A static-tile frame: date `'current'`, no timestamp (string sort key). -/
def wStatic : AlignedImage :=
  ⟨⟨"current", none, "esri_world_z18.png", "esri_world"⟩,
    "aligned_esri_world_z18.png", 1024, 1024, false⟩

/-! # Theorems -/

/-! ## Selection: the best acceptable candidate (C1, C2) -/

/-- Specification of `sort(cloud)` followed by `first()` over a
cloud-filtered pool: any returned candidate is acceptable and minimal among
the acceptable candidates; an empty filtered pool returns nothing, a
nonempty one returns something. -/
theorem best_spec (l : List Candidate) :
    (∀ c, (sortCloud (filterCloud l)).head? = some c →
      c.cloud < CLOUD_THRESHOLD ∧ c ∈ l ∧
        ∀ x ∈ l, x.cloud < CLOUD_THRESHOLD → c.cloud ≤ x.cloud) ∧
    (filterCloud l = [] → (sortCloud (filterCloud l)).head? = none) ∧
    (filterCloud l ≠ [] → ∃ c, (sortCloud (filterCloud l)).head? = some c) := by
  refine ⟨?_, ?_, ?_⟩
  · intro c hc
    obtain ⟨t, ht⟩ := List.head?_eq_some_iff.mp hc
    have hmem : c ∈ sortCloud (filterCloud l) := by
      rw [ht]; exact List.mem_cons_self c t
    have hcf := List.mem_filter.mp ((List.mem_insertionSort cloudLe).mp hmem)
    refine ⟨by simpa using hcf.2, hcf.1, ?_⟩
    intro x hx hxc
    have hxf : x ∈ filterCloud l := List.mem_filter.mpr ⟨hx, by simpa using hxc⟩
    have hxs : x ∈ sortCloud (filterCloud l) := (List.mem_insertionSort cloudLe).mpr hxf
    rw [ht] at hxs
    rcases List.mem_cons.mp hxs with h1 | h1
    · rw [h1]
    · have hp : List.Sorted cloudLe (c :: t) := by
        rw [← ht]; exact List.sorted_insertionSort cloudLe (filterCloud l)
      exact List.rel_of_sorted_cons hp x h1
  · intro h
    rw [sortCloud, h]
    rfl
  · intro h
    cases hs : sortCloud (filterCloud l) with
    | nil =>
      exfalso
      apply h
      have hlen := List.length_insertionSort cloudLe (filterCloud l)
      rw [show List.insertionSort cloudLe (filterCloud l) = sortCloud (filterCloud l) from rfl,
        hs] at hlen
      exact List.length_eq_zero.mp hlen.symm
    | cons a t => exact ⟨a, rfl⟩

/-- C1: for every year and source, the selector considers only candidates
with cloud metric strictly below the threshold; a returned candidate is in
the year's pool, below the threshold, and of minimal cloud metric among the
pool's acceptable candidates; a source with no acceptable candidate yields
nothing. -/
theorem selector_picks_min (year : Nat) (cat : Catalog) :
    (∀ c, get_best_sentinel2 year cat = some c →
      c.cloud < CLOUD_THRESHOLD ∧ c ∈ yearPool Source.sentinel2 year cat ∧
        ∀ x ∈ yearPool Source.sentinel2 year cat,
          x.cloud < CLOUD_THRESHOLD → c.cloud ≤ x.cloud) ∧
    (acceptable Source.sentinel2 year cat = [] → get_best_sentinel2 year cat = none) ∧
    (∀ c, get_best_landsat8 year cat = some c →
      c.cloud < CLOUD_THRESHOLD ∧ c ∈ yearPool Source.landsat8 year cat ∧
        ∀ x ∈ yearPool Source.landsat8 year cat,
          x.cloud < CLOUD_THRESHOLD → c.cloud ≤ x.cloud) ∧
    (acceptable Source.landsat8 year cat = [] → get_best_landsat8 year cat = none) := by
  have h2 := best_spec (yearPool Source.sentinel2 year cat)
  have h8 := best_spec (yearPool Source.landsat8 year cat)
  exact ⟨h2.1, h2.2.1, h8.1, h8.2.1⟩

/-- Witness for C1 at a concrete catalog: the returned 5 %-cloud candidate
is acceptable and minimal. -/
theorem selector_picks_min_witness :
    wCand.cloud < CLOUD_THRESHOLD ∧ wCand ∈ yearPool Source.sentinel2 2020 wCat ∧
      ∀ x ∈ yearPool Source.sentinel2 2020 wCat,
        x.cloud < CLOUD_THRESHOLD → wCand.cloud ≤ x.cloud :=
  (selector_picks_min 2020 wCat).1 wCand (by decide)

/-- C2: whenever the first-priority source of a year has at least one
candidate passing the quality threshold, it alone is queried — the
second-priority source is never consulted — and the selection is tagged
with the first-priority source. -/
theorem fallback_short_circuit (year : Nat) (cat : Catalog)
    (h : acceptable (firstPriority year) year cat ≠ []) :
    (selectForYear cat year).2 = [firstPriority year] ∧
      ∃ c, (selectForYear cat year).1 = SelResult.selected (firstPriority year) c := by
  by_cases hy : 2015 ≤ year
  · have hfp : firstPriority year = Source.sentinel2 := by simp [firstPriority, hy]
    rw [hfp] at h ⊢
    obtain ⟨c, hc⟩ := (best_spec (yearPool Source.sentinel2 year cat)).2.2 h
    have hc' : get_best_sentinel2 year cat = some c := hc
    rw [selectForYear, if_pos hy, hc']
    exact ⟨rfl, c, rfl⟩
  · have hfp : firstPriority year = Source.landsat8 := by simp [firstPriority, hy]
    rw [hfp] at h ⊢
    obtain ⟨c, hc⟩ := (best_spec (yearPool Source.landsat8 year cat)).2.2 h
    have hc' : get_best_landsat8 year cat = some c := hc
    rw [selectForYear, if_neg hy, hc']
    exact ⟨rfl, c, rfl⟩

/-- Witness for C2: in 2020 the Sentinel-2 pool is nonempty, only
Sentinel-2 is queried and the result is tagged Sentinel-2. -/
theorem fallback_short_circuit_witness :
    acceptable (firstPriority 2020) 2020 wCat ≠ [] ∧
      ((selectForYear wCat 2020).2 = [firstPriority 2020] ∧
        ∃ c, (selectForYear wCat 2020).1 = SelResult.selected (firstPriority 2020) c) :=
  ⟨by decide, fallback_short_circuit 2020 wCat (by decide)⟩

/-! ## Download validation (C3) -/

/-- Validation behaviour of the downloader script's `download_image`: a
fetch is accepted iff transport succeeded, the status is 200, the
content-type contains "image" and the payload decodes; in particular a 200
response of content-type `text/html` is rejected, and a 200 `image/png`
response whose bytes fail to decode is rejected. -/
theorem download_validation (resp? : Option HttpResponse) (decode : List Nat → Bool)
    (store : Store) (fn : String) :
    ((download_image resp? decode store fn).1 = true ↔
      ∃ r, resp? = some r ∧ r.status = 200 ∧ containsImage r.contentType = true ∧
        decode r.body = true) ∧
    (∀ body, (download_image (some ⟨200, "text/html", body⟩) decode store fn).1 = false) ∧
    (∀ body, decode body = false →
      (download_image (some ⟨200, "image/png", body⟩) decode store fn).1 = false) := by
  refine ⟨⟨?_, ?_⟩, ?_, ?_⟩
  · intro h
    cases hr : resp? with
    | none => rw [hr] at h; exact absurd h (by simp [download_image])
    | some r =>
      rw [hr] at h
      simp only [download_image] at h
      split_ifs at h with h1 h2
      have hs : r.status = 200 := by
        by_contra hne
        exact h1 (Or.inl hne)
      have hct : containsImage r.contentType = true := by
        rcases Bool.eq_false_or_eq_true (containsImage r.contentType) with ht | hf
        · exact ht
        · exact absurd (Or.inr hf) h1
      exact ⟨r, rfl, hs, hct, h2⟩
  · rintro ⟨r, rfl, hs, hct, hd⟩
    simp only [download_image]
    rw [if_neg, if_pos hd]
    intro hor
    rcases hor with hne | hf
    · exact hne hs
    · rw [hct] at hf
      exact absurd hf (by simp)
  · intro body
    simp only [download_image]
    rw [if_pos (Or.inr (by decide))]
  · intro body hd
    simp only [download_image]
    rw [if_neg, if_neg]
    · rw [hd]
      exact Bool.false_ne_true
    · intro hor
      rcases hor with hne | hf
      · exact hne rfl
      · exact absurd hf (by decide)

/-- Concrete instance of `download_validation`: a nonempty `image/png` body
is accepted by the byte-level decoder, an empty body is rejected at
decode. -/
theorem download_validation_witness :
    (download_image (some okResp) wDecode [] "sentinel2_2020.png").1 = true ∧
      (download_image (some ⟨200, "image/png", []⟩) wDecode [] "f.png").1 = false :=
  ⟨(download_validation (some okResp) wDecode [] "sentinel2_2020.png").1.mpr
      ⟨okResp, rfl, rfl, by decide, by decide⟩,
    (download_validation (some okResp) wDecode [] "f.png").2.2 [] (by decide)⟩

/-- Counterexample to C3 as stated: the analysis script's
`download_sentinel2_images` accepts a response with status 200 and
content-type `text/html` — it checks only the status code, with no
content-type or decode validation — and writes the HTML body to the output
file. -/
theorem analysis_fetch_html_accepted :
    (analysis_fetch (some ⟨200, "text/html", [0]⟩) [] "sentinel2_20160301.png").1
        = true ∧
      (analysis_fetch (some ⟨200, "text/html", [0]⟩) [] "sentinel2_20160301.png").2
        = writeBytes [] "sentinel2_20160301.png" [0] :=
  ⟨rfl, rfl⟩

/-- C3 (amended): the downloader script's `download_image` accepts a fetch
only if every validation step passes — transport succeeds, the status is
200, the content-type indicates an image, and the payload decodes — and
there a 200 `text/html` response and an undecodable 200 `image/png` body
are both rejected; the analysis script's `download_sentinel2_images`
instead accepts on transport success and status 200 alone, with no
content-type or decode check. -/
theorem download_validation_amended (resp? : Option HttpResponse)
    (decode : List Nat → Bool) (store : Store) (fn : String) :
    ((download_image resp? decode store fn).1 = true ↔
      ∃ r, resp? = some r ∧ r.status = 200 ∧ containsImage r.contentType = true ∧
        decode r.body = true) ∧
    (∀ body, (download_image (some ⟨200, "text/html", body⟩) decode store fn).1 = false) ∧
    (∀ body, decode body = false →
      (download_image (some ⟨200, "image/png", body⟩) decode store fn).1 = false) ∧
    ((analysis_fetch resp? store fn).1 = true ↔
      ∃ r, resp? = some r ∧ r.status = 200) := by
  refine ⟨(download_validation resp? decode store fn).1,
    (download_validation resp? decode store fn).2.1,
    (download_validation resp? decode store fn).2.2, ?_, ?_⟩
  · intro h
    cases hr : resp? with
    | none => rw [hr] at h; exact absurd h (by simp [analysis_fetch])
    | some r =>
      rw [hr] at h
      simp only [analysis_fetch] at h
      split_ifs at h with h1
      exact ⟨r, rfl, h1⟩
  · rintro ⟨r, rfl, hs⟩
    simp only [analysis_fetch]
    rw [if_pos hs]

/-- Witness for the amended C3: the same byte-level decoder accepts a
nonempty `image/png` body and rejects an empty one in `download_image`,
while `analysis_fetch` accepts the 200 `text/html` response outright. -/
theorem download_validation_amended_witness :
    (download_image (some okResp) wDecode [] "sentinel2_2020.png").1 = true ∧
      (download_image (some ⟨200, "image/png", []⟩) wDecode [] "f.png").1 = false ∧
      (analysis_fetch (some ⟨200, "text/html", [0]⟩) [] "g.png").1 = true :=
  ⟨(download_validation_amended (some okResp) wDecode [] "sentinel2_2020.png").1.mpr
      ⟨okResp, rfl, rfl, by decide, by decide⟩,
    (download_validation_amended (some okResp) wDecode [] "f.png").2.2.1 [] (by decide),
    (download_validation_amended (some ⟨200, "text/html", [0]⟩) wDecode []
        "g.png").2.2.2.mpr ⟨⟨200, "text/html", [0]⟩, rfl, rfl⟩⟩

/-! ## Manifest ordering (C4) -/

/-- Reflexivity of the lexicographic comparison. -/
theorem lexLe_refl (x : List Char) : lexLe x x = true := by
  rcases lexLe_total x x with h | h <;> exact h

/-- Stability of the manifest sort: the entries carrying any given date
appear in the sorted list exactly in their input order. -/
theorem filter_sortByDate (l : List ManifestEntry) (s : String) :
    (sortByDate l).filter (fun e => e.date == s) = l.filter (fun e => e.date == s) := by
  have hdate : ∀ a ∈ l.filter (fun e => e.date == s), a.date = s := by
    intro a ha
    simpa using (List.mem_filter.mp ha).2
  have hsub1 : (l.filter (fun e => e.date == s)).Sublist (sortByDate l) := by
    apply List.sublist_insertionSort
    · apply List.pairwise_of_forall_mem_list
      intro a ha b hb
      show lexLe a.date.toList b.date.toList = true
      rw [hdate a ha, hdate b hb]
      exact lexLe_refl _
    · exact List.filter_sublist l
  have hsub2 : (l.filter (fun e => e.date == s)).Sublist
      ((sortByDate l).filter (fun e => e.date == s)) := by
    have h := hsub1.filter (fun e => e.date == s)
    rwa [List.filter_eq_self.mpr (fun a ha => (List.mem_filter.mp ha).2)] at h
  have hperm := (List.perm_insertionSort dateLe l).filter (fun e => e.date == s)
  exact (hsub2.eq_of_length hperm.length_eq.symm).symm

/-- Ordering behaviour of the downloader script's `write_viewer_config`:
its images are sorted ascending by date; the sort is stable (entries with
equal dates keep their input order); the date-range summary is the first
and last entry after sorting; and on the example input with dates
2016-03-01, 2013-07-10, 2020-11-05 the output order and range are as
claimed. -/
theorem manifest_sorted_stable (l : List ManifestEntry) (now : String) :
    List.Sorted dateLe (write_viewer_config l now).images ∧
    (∀ s : String, (write_viewer_config l now).images.filter (fun e => e.date == s)
        = l.filter (fun e => e.date == s)) ∧
    (write_viewer_config l now).metadata.date_range.start
        = ((write_viewer_config l now).images.head?.map ManifestEntry.date).getD ("unknown") ∧
    (write_viewer_config l now).metadata.date_range.«end»
        = ((write_viewer_config l now).images.getLast?.map ManifestEntry.date).getD ("unknown") ∧
    (write_viewer_config [wE1, wE2, wE3] "t").images.map ManifestEntry.date
        = ["2013-07-10", "2016-03-01", "2020-11-05"] ∧
    (write_viewer_config [wE1, wE2, wE3] "t").metadata.date_range
        = ⟨"2013-07-10", "2020-11-05"⟩ := by
  refine ⟨List.sorted_insertionSort dateLe l, fun s => filter_sortByDate l s, ?_, ?_, ?_, ?_⟩
  · cases h : (sortByDate l).head? with
    | none => simp [write_viewer_config, h]
    | some x => simp [write_viewer_config, h]
  · cases h : (sortByDate l).getLast? with
    | none => simp [write_viewer_config, h]
    | some x => simp [write_viewer_config, h]
  · decide
  · decide

/-- Counterexample to C4 as stated: the analysis script's
`create_viewer_config` sorts by timestamp-when-present-else-date, not by
acquisition date with input-order ties.  Two frames sharing the date
2016-03-01 but carrying timestamps 2000 and 1000 are reordered by
timestamp, so equal-date frames do not keep their relative input order;
and mixing a timestamp-keyed GEE frame with a date-keyed static-tile frame
— the driver's mainline combination — raises `TypeError` at the sort and
produces no manifest at all. -/
theorem analysis_sort_not_date_stable :
    wT1.info.date = wT2.info.date ∧
      (create_viewer_config [wT1, wT2] "t").map AnalysisConfig.images
        = some [wT2, wT1] ∧
      create_viewer_config [wT1, wStatic] "t" = none :=
  ⟨rfl, rfl, rfl⟩

/-- C4 (amended): the downloader script's manifest builder sorts ascending
by acquisition date with a stable sort — equal-date entries keep their
input order — and its date range is the first and last entry after
sorting, matching the claimed example; the analysis script's builder
instead sorts by timestamp-when-present-else-date, reordering equal-date
frames by timestamp, and raises on a mix of timestamp-keyed and date-keyed
frames, yielding no manifest. -/
theorem manifest_sorted_amended (l : List ManifestEntry) (now : String) :
    List.Sorted dateLe (write_viewer_config l now).images ∧
    (∀ s : String, (write_viewer_config l now).images.filter (fun e => e.date == s)
        = l.filter (fun e => e.date == s)) ∧
    (write_viewer_config l now).metadata.date_range.start
        = ((write_viewer_config l now).images.head?.map ManifestEntry.date).getD ("unknown") ∧
    (write_viewer_config l now).metadata.date_range.«end»
        = ((write_viewer_config l now).images.getLast?.map ManifestEntry.date).getD ("unknown") ∧
    (write_viewer_config [wE1, wE2, wE3] "t").images.map ManifestEntry.date
        = ["2013-07-10", "2016-03-01", "2020-11-05"] ∧
    (write_viewer_config [wE1, wE2, wE3] "t").metadata.date_range
        = ⟨"2013-07-10", "2020-11-05"⟩ ∧
    (wT1.info.date = wT2.info.date ∧
      (create_viewer_config [wT1, wT2] now).map AnalysisConfig.images
        = some [wT2, wT1]) ∧
    create_viewer_config [wT1, wStatic] now = none := by
  obtain ⟨h1, h2, h3, h4, h5, h6⟩ := manifest_sorted_stable l now
  exact ⟨h1, h2, h3, h4, h5, h6, ⟨rfl, rfl⟩, rfl⟩

/-! ## The year loop: failure isolation (C5) and manifest entries (C10) -/

/-- The accept/reject verdict of `download_image` does not depend on the
current output directory or the target filename. -/
theorem download_fst_store (r : Option HttpResponse) (d : List Nat → Bool)
    (s s' : Store) (f f' : String) :
    (download_image r d s f).1 = (download_image r d s' f').1 := by
  cases r with
  | none => rfl
  | some r => simp only [download_image]; split_ifs <;> rfl

/-- The output directory after `download_image` is either unchanged or the
result of writing the response body to the target filename. -/
theorem download_store (r : Option HttpResponse) (d : List Nat → Bool)
    (s : Store) (f : String) :
    (download_image r d s f).2 = s ∨
      ∃ b, (download_image r d s f).2 = writeBytes s f b := by
  cases r with
  | none => exact Or.inl rfl
  | some r =>
    simp only [download_image]
    split_ifs
    · exact Or.inl rfl
    · exact Or.inr ⟨r.body, rfl⟩
    · exact Or.inl rfl

/-- One loop iteration appends exactly the year's accepted entry (if any). -/
theorem processYear_images (env : Env) (st : RunState) (y : Nat) :
    (processYear env st y).images = st.images ++ (acceptedEntry env y).toList := by
  unfold processYear acceptedEntry
  cases hsel : (selectForYear env.cat y).1 with
  | noCoverage => simp
  | selected src c =>
    simp only
    rw [download_fst_store (env.resp src y) env.decode st.store []
      (filenameFor src y) (filenameFor src y)]
    cases hok : (download_image (env.resp src y) env.decode [] (filenameFor src y)).1 <;>
      simp [hok]

/-- One loop iteration appends exactly the failed year (if it fails). -/
theorem processYear_failed (env : Env) (st : RunState) (y : Nat) :
    (processYear env st y).failed
      = st.failed ++ (if yearFails env y then [y] else []) := by
  unfold processYear yearFails
  cases hsel : (selectForYear env.cat y).1 with
  | noCoverage => simp
  | selected src c =>
    simp only
    rw [download_fst_store (env.resp src y) env.decode st.store []
      (filenameFor src y) (filenameFor src y)]
    rcases Bool.eq_false_or_eq_true
        ((download_image (env.resp src y) env.decode [] (filenameFor src y)).1) with
      hok | hok <;> simp [hok]

/-- Characterization of the whole loop: the collected entries are the
year-wise accepted entries in year order, and the skipped years are exactly
the failing years in year order. -/
theorem runLoop_spec (env : Env) (years : List Nat) : ∀ st : RunState,
    (years.foldl (processYear env) st).images
        = st.images ++ years.filterMap (acceptedEntry env) ∧
    (years.foldl (processYear env) st).failed
        = st.failed ++ years.filter (fun z => yearFails env z) := by
  induction years with
  | nil => intro st; simp
  | cons y ys ih =>
    intro st
    simp only [List.foldl_cons]
    obtain ⟨h1, h2⟩ := ih (processYear env st y)
    constructor
    · rw [h1, processYear_images]
      cases hae : acceptedEntry env y <;>
        simp [List.filterMap_cons, hae]
    · rw [h2, processYear_failed]
      cases hyf : yearFails env y <;>
        simp [List.filter_cons, hyf]

/-- C5: a failing year (no acceptable candidate on any source, or a failed
download) is recorded in the skipped-years list while the loop continues:
the final skipped list is exactly the failing years and the final manifest
list is exactly the accepted entries of the other years, unaffected by the
failure. -/
theorem year_failure_isolated (env : Env) (years : List Nat) (y : Nat)
    (hy : y ∈ years) (hf : yearFails env y = true) :
    y ∈ (runYears env years).failed ∧
      (runYears env years).failed = years.filter (fun z => yearFails env z) ∧
      (runYears env years).images = years.filterMap (acceptedEntry env) := by
  obtain ⟨hI, hF⟩ := runLoop_spec env years ⟨[], [], []⟩
  refine ⟨?_, by simpa using hF, by simpa using hI⟩
  have hF' : (runYears env years).failed = years.filter (fun z => yearFails env z) := by
    simpa using hF
  rw [hF']
  exact List.mem_filter.mpr ⟨hy, hf⟩

/-- Witness for C5: with an empty catalog the single configured year is
skipped, the loop terminates normally, and no entry is produced. -/
theorem year_failure_isolated_witness :
    (2020 ∈ [2020] ∧ yearFails wEnvFail 2020 = true) ∧
      (2020 ∈ (runYears wEnvFail [2020]).failed ∧
        (runYears wEnvFail [2020]).failed
            = [2020].filter (fun z => yearFails wEnvFail z) ∧
        (runYears wEnvFail [2020]).images
            = [2020].filterMap (acceptedEntry wEnvFail)) :=
  ⟨⟨by decide, by decide⟩,
    year_failure_isolated wEnvFail [2020] 2020 (by decide) (by decide)⟩

/-- Keys present after a write: the written filename or a previous key. -/
theorem writeBytes_keys (s : Store) (n : String) (b : List Nat) (m : String) :
    m ∈ (writeBytes s n b).map Prod.fst → m = n ∨ m ∈ s.map Prod.fst := by
  intro hm
  rw [writeBytes, List.map_cons] at hm
  rcases List.mem_cons.mp hm with h | h
  · exact Or.inl h
  · obtain ⟨p, hp, he⟩ := List.mem_map.mp h
    exact Or.inr (List.mem_map.mpr ⟨p, List.mem_of_mem_filter hp, he⟩)

/-- Every filename in the output directory after the loop was written as
some year's per-source download target. -/
theorem runStore_keys (env : Env) (years : List Nat) : ∀ st : RunState,
    ∀ m ∈ ((years.foldl (processYear env) st).store).map Prod.fst,
      m ∈ st.store.map Prod.fst ∨ ∃ src y, y ∈ years ∧ m = filenameFor src y := by
  induction years with
  | nil => intro st m hm; exact Or.inl hm
  | cons y ys ih =>
    intro st m hm
    simp only [List.foldl_cons] at hm
    rcases ih (processYear env st y) m hm with hin | ⟨src, y', hy', he⟩
    · have hst : (processYear env st y).store = st.store ∨
          ∃ src b, (processYear env st y).store
            = writeBytes st.store (filenameFor src y) b := by
        unfold processYear
        cases hsel : (selectForYear env.cat y).1 with
        | noCoverage => exact Or.inl rfl
        | selected src c =>
          simp only
          rcases download_store (env.resp src y) env.decode st.store
              (filenameFor src y) with hds | ⟨b, hds⟩
          · cases hok : (download_image (env.resp src y) env.decode st.store
                (filenameFor src y)).1 <;> simp [hok, hds]
          · cases hok : (download_image (env.resp src y) env.decode st.store
                (filenameFor src y)).1 <;> simp [hok, hds]
            all_goals exact Or.inr ⟨src, b, rfl⟩
      rcases hst with hst | ⟨src, b, hst⟩
      · rw [hst] at hin
        exact Or.inl hin
      · rw [hst] at hin
        rcases writeBytes_keys st.store (filenameFor src y) b m hin with h | h
        · exact Or.inr ⟨src, y, List.mem_cons_self y ys, h⟩
        · exact Or.inl h
    · exact Or.inr ⟨src, y', List.mem_cons_of_mem y hy', he⟩

/-- C10: every accepted manifest entry has `aligned_filename` equal to
`filename` and constant 1024×1024 dimensions, every file written by the
run is a per-source/year download target, and no such target carries the
`aligned_` prefix. -/
theorem manifest_entries_fixed (env : Env) (years : List Nat) :
    (∀ e ∈ (runYears env years).images,
        e.aligned_filename = e.filename ∧ e.width = 1024 ∧ e.height = 1024) ∧
    (∀ m ∈ ((runYears env years).store).map Prod.fst,
        ∃ src, ∃ y ∈ years, m = filenameFor src y) ∧
    (∀ (src : Source) (y : Nat),
        "aligned_".toList.isPrefixOf (filenameFor src y).toList = false) := by
  refine ⟨?_, ?_, ?_⟩
  · intro e he
    unfold runYears at he
    rw [(runLoop_spec env years ⟨[], [], []⟩).1] at he
    simp only [List.nil_append] at he
    obtain ⟨y, _, hay⟩ := List.mem_filterMap.mp he
    unfold acceptedEntry at hay
    cases hsel : (selectForYear env.cat y).1 with
    | noCoverage =>
      simp only [hsel] at hay
      exact Option.noConfusion hay
    | selected src c =>
      simp only [hsel] at hay
      rcases Bool.eq_false_or_eq_true
          ((download_image (env.resp src y) env.decode [] (filenameFor src y)).1) with
        hok | hok
      · rw [hok] at hay
        simp only [if_true] at hay
        rw [← Option.some_inj.mp hay]
        exact ⟨rfl, rfl, rfl⟩
      · rw [hok] at hay
        simp at hay
  · intro m hm
    rcases runStore_keys env years ⟨[], [], []⟩ m hm with h | ⟨src, y, hy, he⟩
    · exact absurd h (by simp)
    · exact ⟨src, y, hy, he⟩
  · intro src y
    cases src <;> rfl

/-- Witness for C10: in a run accepting 2020, the produced entry references
the raw filename and the constant dimensions. -/
theorem manifest_entries_fixed_witness :
    mkEntry Source.sentinel2 wCand 2020 ∈ (runYears wEnvOk [2020]).images ∧
      ((mkEntry Source.sentinel2 wCand 2020).aligned_filename
          = (mkEntry Source.sentinel2 wCand 2020).filename ∧
        (mkEntry Source.sentinel2 wCand 2020).width = 1024 ∧
        (mkEntry Source.sentinel2 wCand 2020).height = 1024) :=
  ⟨by decide,
    (manifest_entries_fixed wEnvOk [2020]).1 (mkEntry Source.sentinel2 wCand 2020)
      (by decide)⟩

/-! ## Frame normalization (C6) and empty inputs (C7) -/

/-- C6: on a nonempty input, the first frame's geometry is the reference,
the output has one frame per input frame, every output frame carries the
reference width and height, and a frame is passed through without
resampling exactly when its own geometry already matches the reference. -/
theorem align_uniform (f0 : RawFrame) (rest : List RawFrame)
    (p : RawFrame × AlignedImage)
    (hp : p ∈ (f0 :: rest).zip (align_images (f0 :: rest))) :
    (align_images (f0 :: rest)).length = (f0 :: rest).length ∧
      p.2.width = f0.width ∧ p.2.height = f0.height ∧
      (p.2.resampled = false ↔ p.1.width = f0.width ∧ p.1.height = f0.height) := by
  have hmap : align_images (f0 :: rest) = (f0 :: rest).map (fun f =>
      { info := f.info
        aligned_filename := "aligned_" ++ f.info.filename
        width := f0.width
        height := f0.height
        resampled := !(f.height == f0.height && f.width == f0.width) }) := rfl
  refine ⟨by rw [hmap, List.length_map], ?_⟩
  rw [hmap] at hp
  have h2 := List.zip_map' id (fun f : RawFrame =>
      ({ info := f.info
         aligned_filename := "aligned_" ++ f.info.filename
         width := f0.width
         height := f0.height
         resampled := !(f.height == f0.height && f.width == f0.width) } : AlignedImage))
    (f0 :: rest)
  rw [List.map_id] at h2
  rw [h2] at hp
  obtain ⟨a, _, hpe⟩ := List.mem_map.mp hp
  rw [← hpe]
  refine ⟨rfl, rfl, ?_⟩
  simp [Bool.not_eq_false', Bool.and_eq_true, beq_iff_eq]
  constructor
  · rintro ⟨h1, h2⟩
    exact ⟨h2, h1⟩
  · rintro ⟨h1, h2⟩
    exact ⟨h2, h1⟩

/-- Witness for C6: aligning a 1024×1024 frame followed by an 800×600 frame
resamples the second to 1024×1024. -/
theorem align_uniform_witness :
    ((wF2, wAligned2) ∈ [wF1, wF2].zip (align_images [wF1, wF2])) ∧
      ((align_images [wF1, wF2]).length = [wF1, wF2].length ∧
        wAligned2.width = wF1.width ∧ wAligned2.height = wF1.height ∧
        (wAligned2.resampled = false ↔ wF2.width = wF1.width ∧ wF2.height = wF1.height)) :=
  ⟨by decide, align_uniform wF1 [wF2] (wF2, wAligned2) (by decide)⟩

/-- Counterexample to C7 as stated: the analysis-script manifest builder
does not return the "unknown" sentinel on an empty frame set — it indexes
`aligned_images[0]`, raises `IndexError`, and yields no manifest at all. -/
theorem create_viewer_config_empty_raises :
    create_viewer_config [] "t" = none ∧
      ¬ ∃ cfg, create_viewer_config [] "t" = some cfg ∧
        cfg.metadata.date_range = ⟨"unknown", "unknown"⟩ ∧
        cfg.metadata.total_images = 0 := by
  refine ⟨rfl, ?_⟩
  rintro ⟨cfg, hcfg, _⟩
  rw [show create_viewer_config [] "t" = none from rfl] at hcfg
  exact Option.noConfusion hcfg

/-- C7 (amended): on empty input the normalizer returns an empty sequence
and the downloader-script manifest builder produces the "unknown" date
range and zero total images; the analysis-script manifest builder instead
raises on an empty frame set and produces no manifest. -/
theorem empty_inputs_amended (now : String) :
    align_images [] = [] ∧
      (write_viewer_config [] now).metadata.date_range = ⟨"unknown", "unknown"⟩ ∧
      (write_viewer_config [] now).metadata.total_images = 0 ∧
      (write_viewer_config [] now).images = [] ∧
      create_viewer_config [] now = none :=
  ⟨rfl, rfl, rfl, rfl, rfl⟩

/-! ## The date window (C8) -/

/-- Evaluation at the failing input for C8: a 5 %-cloud Sentinel-2
observation acquired on 2020-12-31 lies inside calendar year 2020 and
inside the catalog, yet the year's queried pool excludes it — `filterDate`
treats the `"{year}-12-31"` end date as exclusive — and the selector
instead returns the cloudier 2020-12-30 observation. -/
theorem dec31_excluded :
    wDecCand.date.year = 2020 ∧ wDecCand.cloud < CLOUD_THRESHOLD ∧
      wDecCand ∈ wDecCat.s2 ∧
      yearPool Source.sentinel2 2020 wDecCat = [wDec30Cand] ∧
      get_best_sentinel2 2020 wDecCat = some wDec30Cand ∧
      wDecCand.cloud < wDec30Cand.cloud := by decide

/-! ## Idempotent re-fetch (C9) -/

/-- Overwriting a filename discards the previous binding entirely. -/
theorem writeBytes_writeBytes (s : Store) (n : String) (b b' : List Nat) :
    writeBytes (writeBytes s n b) n b' = writeBytes s n b' := by
  simp only [writeBytes]
  congr 1
  rw [List.filter_cons]
  simp only [beq_self_eq_true, Bool.not_true, Bool.false_eq_true, if_false]
  exact List.filter_eq_self.mpr (fun a ha => (List.mem_filter.mp ha).2)

/-- C9: a second fetch of the same candidate, render spec and region
targets the same deterministic source/year filename and overwrites in
place: the directory after the re-fetch equals the directory after the
first fetch, and the directory never holds two files of that name. -/
theorem refetch_idempotent (r : Option HttpResponse) (d : List Nat → Bool)
    (s : Store) (src : Source) (year : Nat) :
    (download_image r d (download_image r d s (filenameFor src year)).2
        (filenameFor src year)).2
      = (download_image r d s (filenameFor src year)).2 ∧
    ∀ b, ((writeBytes s (filenameFor src year) b).map Prod.fst).count
        (filenameFor src year) = 1 := by
  constructor
  · cases r with
    | none => rfl
    | some r =>
      simp only [download_image]
      split_ifs
      · rfl
      · exact writeBytes_writeBytes s (filenameFor src year) r.body r.body
      · rfl
  · intro b
    rw [writeBytes, List.map_cons, List.count_cons_self]
    have hz : ((s.filter (fun p => !(p.1 == filenameFor src year))).map Prod.fst).count
        (filenameFor src year) = 0 := by
      rw [List.count_eq_zero]
      intro hmem
      obtain ⟨p, hp, he⟩ := List.mem_map.mp hmem
      have hq := (List.mem_filter.mp hp).2
      rw [he] at hq
      simp at hq
    rw [hz]

end Taraia
